import Mathlib

/-!
Verification of the geocoding pipeline in `src/overlay.py`
(FortilineFL-GEO-COUNTY-OVRLY).

The core of the program is `geocode_address` (overlay.py lines 86-103): a retry
loop around an external geocoding lookup, with exponential backoff on
transient service errors.  Around it sit `geocode_branches` (lines 138-164),
which enriches a static branch list with coordinates and drops failures,
`get_florida_counties` (lines 13-83), whose fallback path unconditionally
raises, and `main` (lines 234-277), the orchestrator.

The external lookup (`geolocator.geocode`) is modelled as an oracle
`Nat → LookupOutcome` giving, per address, the outcome of the n-th call for
that address.  Python exceptions are modelled by `Exc`; the `except
(GeocoderTimedOut, GeocoderServiceError)` clause of the source catches
exactly the geopy geocoder-error family (`GeocoderTimedOut`,
`GeocoderUnavailable`, `GeocoderQueryError`, ... are all subclasses of
`GeocoderServiceError` in geopy), and lets any other exception propagate.
Coordinates are modelled as `Rat` (Python floats carry decimal values here;
the only operation performed on them is Python truthiness, i.e. comparison
with 0.0).  `time.sleep` calls are recorded in a trace of durations.
-/

/-- Python exception values that can arise from the geocoding lookup or the
boundary fetch.  The first four mirror the geopy exception classes: all of
them are instances of `GeocoderServiceError` (by subclassing), so all are
caught by the `except (GeocoderTimedOut, GeocoderServiceError)` clause at
overlay.py line 96.  `exception msg` stands for any exception outside that
family (e.g. a plain `Exception`), which that clause does not catch. -/
inductive Exc where
  | geocoderTimedOut
  | geocoderUnavailable
  | geocoderQueryError
  | geocoderAuthenticationFailure
  | exception (msg : String)
deriving DecidableEq

/-- Whether the `except (GeocoderTimedOut, GeocoderServiceError)` clause at
overlay.py line 96 catches this exception (isinstance test against the two
named classes; all geopy geocoder errors are subclasses of
`GeocoderServiceError`). -/
def Exc.isCaught : Exc → Bool
  | .exception _ => false
  | _ => true

/-- Transient service failures in the sense of the spec: timeout or temporary
unavailability. -/
def Exc.isTransient : Exc → Bool
  | .geocoderTimedOut => true
  | .geocoderUnavailable => true
  | _ => false

/-- Permanent (non-transient) geocoder errors: definitive negative answers
from the service, raised by geopy as `GeocoderQueryError`,
`GeocoderAuthenticationFailure`, ... — all subclasses of
`GeocoderServiceError`. -/
def Exc.isPermanent : Exc → Bool
  | .geocoderQueryError => true
  | .geocoderAuthenticationFailure => true
  | _ => false

/-- Outcome of one call to `geolocator.geocode(address, timeout=10)`:
a located result (the returned `Location` object, truthy, carrying
`.latitude`/`.longitude`), `None` ("not found"), or a raised exception. -/
inductive LookupOutcome where
  | located (latitude longitude : Rat)
  | notFound
  | raises (e : Exc)
deriving DecidableEq

/-- What `geocode_address` does in the end: return a coordinate pair,
return `(None, None)`, or let an exception propagate to its caller. -/
inductive GeoResult where
  | ok (latitude longitude : Rat)
  | failed
  | exn (e : Exc)
deriving DecidableEq

/-- A run of `geocode_address`: its result, the number of lookup calls it
made, and the durations of its `time.sleep` calls, in order. -/
structure GeoRun where
  result : GeoResult
  attempts : Nat
  sleeps : List Nat
deriving DecidableEq

/-- The loop body of `geocode_address` (overlay.py lines 90-103), starting
at loop index `attempt` with `fuel = max_retries - attempt` iterations
remaining (`for attempt in range(max_retries)`).  Per iteration:
call the lookup; a truthy location returns its coordinates immediately;
a falsy (`None`) location sleeps 1 and falls through to the next iteration;
a caught exception sleeps `2 ** attempt` and continues when
`attempt < max_retries - 1`, else returns `(None, None)`; an uncaught
exception propagates.  Falling off the loop returns `(None, None)`. -/
def geocodeFrom (lookup : Nat → LookupOutcome) (max_retries : Nat) :
    Nat → Nat → GeoRun
  | _, 0 => ⟨.failed, 0, []⟩
  | attempt, fuel + 1 =>
    match lookup attempt with
    | .located lat lon => ⟨.ok lat lon, 1, []⟩
    | .notFound =>
      let rest := geocodeFrom lookup max_retries (attempt + 1) fuel
      ⟨rest.result, rest.attempts + 1, 1 :: rest.sleeps⟩
    | .raises e =>
      if e.isCaught then
        if attempt < max_retries - 1 then
          let rest := geocodeFrom lookup max_retries (attempt + 1) fuel
          ⟨rest.result, rest.attempts + 1, 2 ^ attempt :: rest.sleeps⟩
        else ⟨.failed, 1, []⟩
      else ⟨.exn e, 1, []⟩

/-- `geocode_address(address, geolocator, max_retries)` (overlay.py lines
86-103), with the lookup behaviour for the given address supplied as an
oracle over call indices. -/
def geocode_address (lookup : Nat → LookupOutcome) (max_retries : Nat) : GeoRun :=
  geocodeFrom lookup max_retries 0 max_retries

example :
    geocode_address (fun _ => .raises .geocoderTimedOut) 3 =
      ⟨.failed, 3, [1, 2]⟩ := by decide

example :
    geocode_address (fun _ => .notFound) 3 = ⟨.failed, 3, [1, 1, 1]⟩ := by
  decide

example :
    geocode_address (fun n => if n < 2 then .raises .geocoderTimedOut
      else .located 25 (-80)) 3 = ⟨.ok 25 (-80), 3, [1, 2]⟩ := by decide

example :
    geocode_address (fun _ => .raises (.exception "boom")) 3 =
      ⟨.exn (.exception "boom"), 1, []⟩ := by decide

/-- A branch record from `get_fortiline_branches` (overlay.py lines
106-135): `{"name": ..., "address": ...}`. -/
structure Branch where
  name : String
  address : String
deriving DecidableEq

/-- An enriched entry appended to `branch_locations` by `geocode_branches`
(overlay.py lines 151-156).  The `latitude`/`longitude` fields hold the
Python variables `lat`/`lon` at the append site, which are either floats or
`None`; hence `Option Rat`. -/
structure BranchLocation where
  name : String
  address : String
  latitude : Option Rat
  longitude : Option Rat
deriving DecidableEq

/-- Python truthiness of the `lat` / `lon` variables in `geocode_branches`:
`None` is falsy and the float `0.0` is falsy; every other float is truthy. -/
def truthy : Option Rat → Bool
  | none => false
  | some x => x != 0

/-- The hardcoded branch list of `get_fortiline_branches` (overlay.py lines
106-135). -/
def get_fortiline_branches : List Branch :=
  [⟨"Miami", "14202 SW 142nd Ave, Miami, FL 33186"⟩,
   ⟨"Pompano Beach", "2250 N Andrews Ave, Pompano Beach, FL 33069"⟩,
   ⟨"Riviera Beach", "6759 White Dr, Riviera Beach, FL 33407"⟩,
   ⟨"Fort Pierce", "3904 Selvitz Rd, Fort Pierce, FL 34982"⟩,
   ⟨"Fort Myers", "4810 Laredo Ave, Fort Myers, FL 33905"⟩,
   ⟨"Sarasota", "2074 47th Street, Sarasota, FL 34234"⟩,
   ⟨"Tampa", "1031 S 86th Street, Tampa, FL 33619"⟩,
   ⟨"Dundee", "225 W Frederick Ave, Dundee, FL 33838"⟩,
   ⟨"Kissimmee", "731 Duncan Ave, Kissimmee, FL 34744"⟩,
   ⟨"Apopka", "3636 Fudge Rd, Apopka, FL 32703"⟩,
   ⟨"Sanford", "2291 West Airport Blvd, Sanford, FL 32771"⟩,
   ⟨"Port Orange", "700 Oak Heights Ct, Port Orange, FL 32129"⟩,
   ⟨"Ocala", "3518 SW 13th St, Ocala, FL 34474"⟩,
   ⟨"St Augustine", "3780 Deerpark Blvd, St Augustine, Fl 32033"⟩,
   ⟨"Jacksonville", "6982 Highway Ave, Jacksonville, FL 32254"⟩,
   ⟨"Lake City", "3847 US-441, Lake City, FL 32025"⟩,
   ⟨"Panama City", "1417 Transmitter Rd, Fl 32401"⟩]

/-- `geocode_branches(branches)` (overlay.py lines 138-164).  For each
branch in order it runs `lat, lon = geocode_address(branch["address"],
geolocator)` (with the default `max_retries=3`) and appends
`{name, address, latitude: lat, longitude: lon}` exactly when
`if lat and lon:` holds (Python truthiness).  An exception escaping
`geocode_address` propagates out of the loop, abandoning the batch.
The behaviour of the geolocator is the oracle `geo`, indexed by address and by
per-address call count. -/
def geocode_branches (geo : String → Nat → LookupOutcome) :
    List Branch → Except Exc (List BranchLocation)
  | [] => .ok []
  | branch :: rest =>
    match (geocode_address (geo branch.address) 3).result with
    | .exn e => .error e
    | .failed => geocode_branches geo rest
    | .ok lat lon =>
      Except.map
        (fun tail =>
          if truthy (some lat) && truthy (some lon)
          then ⟨branch.name, branch.address, some lat, some lon⟩ :: tail
          else tail)
        (geocode_branches geo rest)

/-- `get_florida_counties()` (overlay.py lines 13-83).  The whole primary
path — download of the TIGER/Line shapefile, `gpd.read_file`, the
`STATEFP == "12"` filter, CRS normalisation, temp-file cleanup — is one
`try` block whose outcome we pass in as `primary` (a county collection, or
the exception the block raised).  On failure the `except` block (lines
63-83) enters a fallback `try` that assigns an alternative GeoJSON URL but
unconditionally executes `raise Exception("Primary download method
failed...")` (line 75) before ever fetching it; the inner `except` prints
diagnostics and re-raises that exception with a bare `raise` (line 83). -/
def get_florida_counties (primary : Except Exc (List String)) :
    Except Exc (List String) :=
  match primary with
  | .ok florida_counties => .ok florida_counties
  | .error _ =>
    .error (.exception
      "Primary download method failed. Please check your internet connection.")

/-- The document built by `create_map(florida_counties, branch_locations)`
(overlay.py lines 167-231): one GeoJson county layer and one marker per
enriched branch. -/
structure MapDoc where
  counties : List String
  markers : List BranchLocation
deriving DecidableEq

/-- `create_map` (overlay.py lines 167-231), abstracted to the data it
renders. -/
def create_map (florida_counties : List String)
    (branch_locations : List BranchLocation) : MapDoc :=
  ⟨florida_counties, branch_locations⟩

/-- Control-flow outcome of `main()` (overlay.py lines 234-277):
`abortedNoBranches` is the `if not branch_locations:` path (line 252),
which prints `"ERROR: No branches were successfully geocoded!"` and
returns before `create_map` is called; `rendered doc` is the success path
(map created and saved); `raised e` is an exception reaching the top-level
`except`, which prints troubleshooting tips and re-raises. -/
inductive MainOutcome where
  | abortedNoBranches
  | rendered (doc : MapDoc)
  | raised (e : Exc)
deriving DecidableEq

deriving instance DecidableEq for Except

namespace Overlay

/-- `main()` (overlay.py lines 234-277), with the primary boundary-fetch
outcome and the geolocator oracle as inputs. -/
def main (primary : Except Exc (List String))
    (geo : String → Nat → LookupOutcome) : MainOutcome :=
  match get_florida_counties primary with
  | .error e => .raised e
  | .ok florida_counties =>
    match geocode_branches geo get_fortiline_branches with
    | .error e => .raised e
    | .ok branch_locations =>
      if branch_locations.isEmpty then .abortedNoBranches
      else .rendered (create_map florida_counties branch_locations)

end Overlay

example :
    geocode_branches (fun _ _ => .notFound) get_fortiline_branches =
      .ok [] := by decide

example :
    Overlay.main (.ok ["Alachua"]) (fun _ _ => .notFound) =
      .abortedNoBranches := by decide

example :
    geocode_branches
      (fun a _ => if a = "x" then .located 0 25 else .located 10 20)
      [⟨"X", "x"⟩, ⟨"Y", "y"⟩] =
      .ok [⟨"Y", "y", some 10, some 20⟩] := by decide

/-! ### Lemmas about the retry loop -/

lemma geocodeFrom_located {lookup : Nat → LookupOutcome} {max_retries : Nat}
    {attempt fuel : Nat} {lat lon : Rat}
    (h : lookup attempt = .located lat lon) :
    geocodeFrom lookup max_retries attempt (fuel + 1) = ⟨.ok lat lon, 1, []⟩ := by
  conv_lhs => rw [geocodeFrom]
  rw [h]

lemma geocodeFrom_notFound_step {lookup : Nat → LookupOutcome}
    {max_retries : Nat} {attempt fuel : Nat}
    (h : lookup attempt = .notFound) :
    geocodeFrom lookup max_retries attempt (fuel + 1) =
      ⟨(geocodeFrom lookup max_retries (attempt + 1) fuel).result,
        (geocodeFrom lookup max_retries (attempt + 1) fuel).attempts + 1,
        1 :: (geocodeFrom lookup max_retries (attempt + 1) fuel).sleeps⟩ := by
  conv_lhs => rw [geocodeFrom]
  rw [h]

lemma geocodeFrom_caught_mid {lookup : Nat → LookupOutcome}
    {max_retries : Nat} {attempt fuel : Nat} {e : Exc}
    (h : lookup attempt = .raises e) (hc : e.isCaught = true)
    (hmid : attempt < max_retries - 1) :
    geocodeFrom lookup max_retries attempt (fuel + 1) =
      ⟨(geocodeFrom lookup max_retries (attempt + 1) fuel).result,
        (geocodeFrom lookup max_retries (attempt + 1) fuel).attempts + 1,
        2 ^ attempt :: (geocodeFrom lookup max_retries (attempt + 1) fuel).sleeps⟩ := by
  conv_lhs => rw [geocodeFrom]
  rw [h]
  simp only [hc, if_true, hmid, if_pos]

lemma geocodeFrom_caught_last {lookup : Nat → LookupOutcome}
    {max_retries : Nat} {attempt fuel : Nat} {e : Exc}
    (h : lookup attempt = .raises e) (hc : e.isCaught = true)
    (hlast : ¬ attempt < max_retries - 1) :
    geocodeFrom lookup max_retries attempt (fuel + 1) = ⟨.failed, 1, []⟩ := by
  conv_lhs => rw [geocodeFrom]
  rw [h]
  simp only [hc, if_true, hlast, if_neg, not_false_iff]

lemma geocodeFrom_uncaught {lookup : Nat → LookupOutcome}
    {max_retries : Nat} {attempt fuel : Nat} {e : Exc}
    (h : lookup attempt = .raises e) (hc : e.isCaught = false) :
    geocodeFrom lookup max_retries attempt (fuel + 1) = ⟨.exn e, 1, []⟩ := by
  conv_lhs => rw [geocodeFrom]
  rw [h]
  simp only [hc, Bool.false_eq_true, if_false]

lemma cons_pow_range (attempt k : Nat) :
    (2 : Nat) ^ attempt :: (List.range k).map (fun i => 2 ^ (attempt + 1 + i)) =
      (List.range (k + 1)).map (fun i => 2 ^ (attempt + i)) := by
  rw [List.range_succ_eq_map, List.map_cons, List.map_map]
  refine congrArg₂ _ (by rw [Nat.add_zero]) ?_
  refine List.map_congr_left ?_
  intro i _
  simp only [Function.comp_apply, Nat.succ_eq_add_one]
  ring_nf

lemma sum_pow_range (k : Nat) :
    (((List.range k).map (fun i => (2 : Nat) ^ i)).sum) = 2 ^ k - 1 := by
  induction k with
  | zero => rfl
  | succ k ih =>
    rw [List.range_succ, List.map_append, List.sum_append, ih]
    have h1 : 1 ≤ (2 : Nat) ^ k := Nat.one_le_two_pow
    simp [pow_succ]
    omega

/-- If every lookup from index `attempt` for `fuel` more iterations raises
a caught exception, and `attempt + fuel = max_retries` (the loop
invariant), the loop consumes all `fuel` iterations, backs off
`2 ^ attempt, 2 ^ (attempt+1), ...` between attempts (none after the last),
and returns `(None, None)`. -/
lemma geocodeFrom_allCaught (lookup : Nat → LookupOutcome) (max_retries : Nat) :
    ∀ fuel attempt, attempt + fuel = max_retries →
    (∀ i, i < fuel → ∃ e, lookup (attempt + i) = .raises e ∧ e.isCaught = true) →
    geocodeFrom lookup max_retries attempt fuel =
      ⟨.failed, fuel, (List.range (fuel - 1)).map (fun i => 2 ^ (attempt + i))⟩ := by
  intro fuel
  induction fuel with
  | zero => intro attempt _ _; rfl
  | succ f ih =>
    intro attempt htot herr
    obtain ⟨e, he, hc⟩ := herr 0 (Nat.succ_pos f)
    rw [Nat.add_zero] at he
    cases f with
    | zero =>
      have hlast : ¬ attempt < max_retries - 1 := by omega
      rw [geocodeFrom_caught_last he hc hlast]; rfl
    | succ f' =>
      have hmid : attempt < max_retries - 1 := by omega
      have hrest := ih (attempt + 1) (by omega)
        (fun i hi => by
          have := herr (i + 1) (by omega)
          rwa [show attempt + (i + 1) = attempt + 1 + i by omega] at this)
      rw [geocodeFrom_caught_mid he hc hmid, hrest]
      simp only [Nat.add_sub_cancel]
      exact congrArg _ (by simpa using cons_pow_range attempt f')

/-- If the first `k` lookups from index `attempt` raise caught exceptions
and the next one returns a located result, with `k` strictly below the
remaining `fuel` and `attempt + fuel = max_retries`, the loop succeeds on
the `(k+1)`-st call after backoffs `2 ^ attempt, ..., 2 ^ (attempt+k-1)`. -/
lemma geocodeFrom_errorsThenLocated (lookup : Nat → LookupOutcome)
    (max_retries : Nat) (lat lon : Rat) :
    ∀ k fuel attempt, attempt + fuel = max_retries → k < fuel →
    (∀ i, i < k → ∃ e, lookup (attempt + i) = .raises e ∧ e.isCaught = true) →
    lookup (attempt + k) = .located lat lon →
    geocodeFrom lookup max_retries attempt fuel =
      ⟨.ok lat lon, k + 1, (List.range k).map (fun i => 2 ^ (attempt + i))⟩ := by
  intro k
  induction k with
  | zero =>
    intro fuel attempt htot hk _ hloc
    rw [Nat.add_zero] at hloc
    cases fuel with
    | zero => omega
    | succ f => rw [geocodeFrom_located hloc]; rfl
  | succ k ih =>
    intro fuel attempt htot hk herr hloc
    cases fuel with
    | zero => omega
    | succ f =>
      obtain ⟨e, he, hc⟩ := herr 0 (Nat.succ_pos k)
      rw [Nat.add_zero] at he
      have hmid : attempt < max_retries - 1 := by omega
      have hrest := ih f (attempt + 1) (by omega) (by omega)
        (fun i hi => by
          have := herr (i + 1) (by omega)
          rwa [show attempt + (i + 1) = attempt + 1 + i by omega] at this)
        (by rwa [show attempt + 1 + k = attempt + (k + 1) by omega])
      rw [geocodeFrom_caught_mid he hc hmid, hrest]
      exact congrArg _ (by simpa using cons_pow_range attempt k)

/-- If every lookup from `attempt` on returns "not found" for `fuel`
iterations, each iteration sleeps 1 and falls through; the loop exhausts
and returns `(None, None)`.  (This branch never consults `max_retries`.) -/
lemma geocodeFrom_allNotFound (lookup : Nat → LookupOutcome)
    (max_retries : Nat) :
    ∀ fuel attempt,
    (∀ i, i < fuel → lookup (attempt + i) = .notFound) →
    geocodeFrom lookup max_retries attempt fuel =
      ⟨.failed, fuel, List.replicate fuel 1⟩ := by
  intro fuel
  induction fuel with
  | zero => intro attempt _; rfl
  | succ f ih =>
    intro attempt hnf
    have h0 := hnf 0 (Nat.succ_pos f)
    rw [Nat.add_zero] at h0
    have hrest := ih (attempt + 1)
      (fun i hi => by
        have := hnf (i + 1) (by omega)
        rwa [show attempt + (i + 1) = attempt + 1 + i by omega] at this)
    rw [geocodeFrom_notFound_step h0, hrest, List.replicate_succ]

lemma Exc.isTransient_isCaught {e : Exc} (h : e.isTransient = true) :
    e.isCaught = true := by
  cases e <;> simp_all [Exc.isTransient, Exc.isCaught]

lemma Exc.isPermanent_isCaught {e : Exc} (h : e.isPermanent = true) :
    e.isCaught = true := by
  cases e <;> simp_all [Exc.isPermanent, Exc.isCaught]

/-- If every exception the lookup can raise before index `attempt + fuel`
is caught by the `except` clause, no exception propagates out of the
loop. -/
lemma geocodeFrom_noExn (lookup : Nat → LookupOutcome) (max_retries : Nat) :
    ∀ fuel attempt,
    (∀ n e, n < attempt + fuel → lookup n = .raises e → e.isCaught = true) →
    ∀ e, (geocodeFrom lookup max_retries attempt fuel).result ≠ .exn e := by
  intro fuel
  induction fuel with
  | zero => intro attempt _ e h; exact GeoResult.noConfusion h
  | succ f ih =>
    intro attempt hc e
    have hrest := ih (attempt + 1)
      (fun n e' hn => hc n e' (by omega))
    match hl : lookup attempt with
    | .located lat lon => rw [geocodeFrom_located hl]; exact fun h => by cases h
    | .notFound => rw [geocodeFrom_notFound_step hl]; exact hrest e
    | .raises e' =>
      have hce' : e'.isCaught = true := hc attempt e' (by omega) hl
      by_cases hmid : attempt < max_retries - 1
      · rw [geocodeFrom_caught_mid hl hce' hmid]; exact hrest e
      · rw [geocodeFrom_caught_last hl hce' hmid]; exact fun h => by cases h

/-! ### Lemmas about the batch step and the orchestrator -/

/-- If every exception the geolocator can raise (for any address, at any
call) is in the geopy family caught by `geocode_address`, then
`geocode_branches` never lets an exception escape: per-address failures
are absorbed, the batch always returns a list. -/
lemma geocode_branches_noError (geo : String → Nat → LookupOutcome)
    (hgeo : ∀ a n e, geo a n = .raises e → e.isCaught = true) :
    ∀ bs : List Branch, ∀ e, geocode_branches geo bs ≠ .error e := by
  intro bs
  induction bs with
  | nil => intro e h; exact Except.noConfusion h
  | cons b rest ih =>
    intro e
    simp only [geocode_branches]
    have hnoexn := geocodeFrom_noExn (geo b.address) 3 3 0
      (fun n e' _ hr => hgeo b.address n e' hr)
    match hres : (geocode_address (geo b.address) 3).result with
    | .exn e' => exact absurd hres (hnoexn e')
    | .failed => exact ih e
    | .ok lat lon =>
      show Except.map _ (geocode_branches geo rest) ≠ Except.error e
      match hrec : geocode_branches geo rest with
      | .error e' => exact absurd hrec (ih e')
      | .ok tail => exact fun h => Except.noConfusion h

/-- With the boundary fetch succeeding and a geolocator whose exceptions
are all caught, `main` takes the `abortedNoBranches` exit exactly when the
batch step produced the empty list. -/
lemma main_abortedNoBranches_iff (fc : List String)
    (geo : String → Nat → LookupOutcome)
    (hgeo : ∀ a n e, geo a n = .raises e → e.isCaught = true) :
    Overlay.main (.ok fc) geo = .abortedNoBranches ↔
      geocode_branches geo get_fortiline_branches = .ok [] := by
  unfold Overlay.main get_florida_counties
  match hb : geocode_branches geo get_fortiline_branches with
  | .error e => exact absurd hb (geocode_branches_noError geo hgeo _ e)
  | .ok [] => simp
  | .ok (l :: ls) => simp [List.isEmpty]

/-! ### Claim theorems -/

/-- Claim C4: for every address on which the lookup raises a transient
error on all attempts with retry bound `R` (consecutively),
`geocode_address` returns failure and performs exactly `R` lookup
attempts — no more, no fewer. -/
theorem C4_transient_exhaustion (lookup : Nat → LookupOutcome) (R : Nat)
    (h : ∀ n, n < R → ∃ e, lookup n = .raises e ∧ e.isTransient = true) :
    (geocode_address lookup R).result = .failed ∧
      (geocode_address lookup R).attempts = R := by
  have hrun := geocodeFrom_allCaught lookup R R 0 (Nat.zero_add R)
    (fun i hi => by
      obtain ⟨e, he, ht⟩ := h i (by omega)
      exact ⟨e, by rwa [Nat.zero_add], Exc.isTransient_isCaught ht⟩)
  rw [geocode_address, hrun]
  exact ⟨rfl, rfl⟩

/-- Witness for C4 at `R = 3` with a lookup that always raises
`GeocoderUnavailable`. -/
theorem C4_transient_exhaustion_witness :
    (geocode_address (fun _ => .raises .geocoderUnavailable) 3).result =
        .failed ∧
      (geocode_address (fun _ => .raises .geocoderUnavailable) 3).attempts =
        3 :=
  C4_transient_exhaustion (fun _ => .raises .geocoderUnavailable) 3
    (fun _ _ => ⟨.geocoderUnavailable, rfl, rfl⟩)

/-- Claim C6: for every address on which the lookup raises a transient
error exactly `k` times with `k < R` and then succeeds, `geocode_address`
returns the successful coordinates and the total backoff delay equals
`1 + 2 + 4 + ... + 2 ^ (k-1) = 2 ^ k - 1` time units. -/
theorem C6_backoff_total (lookup : Nat → LookupOutcome) (R k : Nat)
    (lat lon : Rat) (hk : k < R)
    (herr : ∀ n, n < k → ∃ e, lookup n = .raises e ∧ e.isTransient = true)
    (hloc : lookup k = .located lat lon) :
    (geocode_address lookup R).result = .ok lat lon ∧
      (geocode_address lookup R).sleeps =
        (List.range k).map (fun i => 2 ^ i) ∧
      (geocode_address lookup R).sleeps.sum = 2 ^ k - 1 := by
  have hrun := geocodeFrom_errorsThenLocated lookup R lat lon k R 0
    (Nat.zero_add R) hk
    (fun i hi => by
      obtain ⟨e, he, ht⟩ := herr i hi
      exact ⟨e, by rwa [Nat.zero_add], Exc.isTransient_isCaught ht⟩)
    (by rwa [Nat.zero_add])
  rw [geocode_address, hrun]
  refine ⟨rfl, by simp, ?_⟩
  simpa using sum_pow_range k

/-- Witness for C6 at `k = 2`, `R = 3`: two timeouts then a located
result; total backoff `1 + 2 = 2 ^ 2 - 1`. -/
theorem C6_backoff_total_witness :
    (geocode_address
        (fun n => if n < 2 then .raises .geocoderTimedOut
          else .located 25 (-80)) 3).result = .ok 25 (-80) ∧
      (geocode_address
        (fun n => if n < 2 then .raises .geocoderTimedOut
          else .located 25 (-80)) 3).sleeps =
        (List.range 2).map (fun i => 2 ^ i) ∧
      (geocode_address
        (fun n => if n < 2 then .raises .geocoderTimedOut
          else .located 25 (-80)) 3).sleeps.sum = 2 ^ 2 - 1 :=
  C6_backoff_total
    (fun n => if n < 2 then .raises .geocoderTimedOut
      else .located 25 (-80)) 3 2 25 (-80) (by omega)
    (fun n hn => ⟨.geocoderTimedOut, by simp [hn], rfl⟩)
    (by rfl)

/-- Claim C7: a "not found" lookup answer makes `geocode_address` sleep a
fixed 1 time unit and fall through to the next loop iteration, consuming
the retry budget like a transient error; an address that is "not found" on
every attempt returns failure only after `R` iterations (with `R` lookup
calls and `R` unit sleeps). -/
theorem C7_notFound_fallthrough (lookup : Nat → LookupOutcome) (R : Nat)
    (h : ∀ n, n < R → lookup n = .notFound) :
    geocode_address lookup R = ⟨.failed, R, List.replicate R 1⟩ := by
  rw [geocode_address]
  exact geocodeFrom_allNotFound lookup R R 0
    (fun i hi => by rw [Nat.zero_add]; exact h i hi)

/-- Witness for C7 at `R = 3` with a lookup that always answers
"not found". -/
theorem C7_notFound_fallthrough_witness :
    geocode_address (fun _ => .notFound) 3 =
      ⟨.failed, 3, List.replicate 3 1⟩ :=
  C7_notFound_fallthrough (fun _ => .notFound) 3 (fun _ _ => rfl)

/-- Claim C2: a permanent (non-transient) geocoder error never escapes
`geocode_address`: if every attempt raises a permanent geopy error the
function returns the failure value `(None, None)`; more generally, when the
geolocator only raises geopy geocoder errors, `geocode_branches` never
propagates an exception (a per-address failure never aborts the batch),
and `main` aborts the batch exactly when zero addresses succeed. -/
theorem C2_permanent_error_contained (lookup : Nat → LookupOutcome)
    (R : Nat) (geo : String → Nat → LookupOutcome) (bs : List Branch)
    (fc : List String)
    (hperm : ∀ n, n < R → ∃ e, lookup n = .raises e ∧ e.isPermanent = true)
    (hgeo : ∀ a n e, geo a n = .raises e → e.isCaught = true) :
    (geocode_address lookup R).result = .failed ∧
      (∀ e, geocode_branches geo bs ≠ .error e) ∧
      (Overlay.main (.ok fc) geo = .abortedNoBranches ↔
        geocode_branches geo get_fortiline_branches = .ok []) := by
  have hrun := geocodeFrom_allCaught lookup R R 0 (Nat.zero_add R)
    (fun i hi => by
      obtain ⟨e, he, hp⟩ := hperm i (by omega)
      exact ⟨e, by rwa [Nat.zero_add], Exc.isPermanent_isCaught hp⟩)
  refine ⟨?_, geocode_branches_noError geo hgeo bs,
    main_abortedNoBranches_iff fc geo hgeo⟩
  rw [geocode_address, hrun]

/-- Witness for C2: every attempt raises `GeocoderQueryError` (a permanent
geopy error); `geocode_address` returns `(None, None)`, the batch never
errors, and `main` aborts exactly on the empty result. -/
theorem C2_permanent_error_contained_witness :
    (geocode_address (fun _ => .raises .geocoderQueryError) 3).result =
        .failed ∧
      geocode_branches (fun _ _ => .raises .geocoderQueryError)
          [⟨"Miami", "14202 SW 142nd Ave, Miami, FL 33186"⟩] ≠
        .error .geocoderQueryError ∧
      (Overlay.main (.ok ["Alachua"])
          (fun _ _ => .raises .geocoderQueryError) = .abortedNoBranches ↔
        geocode_branches (fun _ _ => .raises .geocoderQueryError)
          get_fortiline_branches = .ok []) := by
  have h := C2_permanent_error_contained
    (fun _ => .raises .geocoderQueryError) 3
    (fun _ _ => .raises .geocoderQueryError)
    [⟨"Miami", "14202 SW 142nd Ave, Miami, FL 33186"⟩] ["Alachua"]
    (fun _ _ => ⟨.geocoderQueryError, rfl, rfl⟩)
    (fun _ _ e he => by cases he; rfl)
  exact ⟨h.1, h.2.1 .geocoderQueryError, h.2.2⟩

/-- Claim C3: if the batch geocoding step yields zero successfully
geocoded branches, `main` takes the explicit-error exit
(`abortedNoBranches`, which prints `"ERROR: No branches were successfully
geocoded!"`) before `create_map` is ever invoked: its outcome is not
`rendered` for any document. -/
theorem C3_zero_successes_aborts (fc : List String)
    (geo : String → Nat → LookupOutcome)
    (h : geocode_branches geo get_fortiline_branches = .ok []) :
    Overlay.main (.ok fc) geo = .abortedNoBranches ∧
      ∀ doc, Overlay.main (.ok fc) geo ≠ .rendered doc := by
  have hmain : Overlay.main (.ok fc) geo = .abortedNoBranches := by
    unfold Overlay.main get_florida_counties
    rw [h]
    rfl
  exact ⟨hmain, fun doc hr => by rw [hmain] at hr; exact MainOutcome.noConfusion hr⟩

/-- Witness for C3: with a geolocator that answers "not found" for every
address, all 17 hardcoded branches fail and `main` aborts without
rendering. -/
theorem C3_zero_successes_aborts_witness :
    Overlay.main (.ok ["Alachua"]) (fun _ _ => .notFound) =
        .abortedNoBranches ∧
      Overlay.main (.ok ["Alachua"]) (fun _ _ => .notFound) ≠
        .rendered (create_map ["Alachua"] []) := by
  have h := C3_zero_successes_aborts ["Alachua"] (fun _ _ => .notFound)
    (by decide)
  exact ⟨h.1, h.2 (create_map ["Alachua"] [])⟩

/-- Claim C5: every entry in the enriched list returned by
`geocode_branches` has non-null latitude and longitude; failed branches
are dropped entirely, never included with null coordinates. -/
theorem C5_no_null_coordinates (geo : String → Nat → LookupOutcome)
    (bs : List Branch) (locs : List BranchLocation)
    (h : geocode_branches geo bs = .ok locs) :
    ∀ entry ∈ locs, entry.latitude ≠ none ∧ entry.longitude ≠ none := by
  induction bs generalizing locs with
  | nil =>
    simp only [geocode_branches] at h
    cases h
    intro entry hm
    cases hm
  | cons b rest ih =>
    simp only [geocode_branches] at h
    cases hres : (geocode_address (geo b.address) 3).result with
    | exn e => simp [hres] at h
    | failed =>
      rw [hres] at h
      exact ih locs h
    | ok lat lon =>
      rw [hres] at h
      cases hrec : geocode_branches geo rest with
      | error e => simp [hrec, Except.map] at h
      | ok tail =>
        rw [hrec] at h
        simp only [Except.map] at h
        cases h
        intro entry hm
        by_cases hg : (truthy (some lat) && truthy (some lon)) = true
        · rw [if_pos hg] at hm
          rcases List.mem_cons.mp hm with hhead | htail
          · subst hhead
            exact ⟨Option.some_ne_none lat, Option.some_ne_none lon⟩
          · exact ih tail hrec entry htail
        · rw [if_neg hg] at hm
          exact ih tail hrec entry hm

/-- Witness for C5: a geolocator that locates everything at (10, 20)
yields an enriched singleton whose coordinates are non-null. -/
theorem C5_no_null_coordinates_witness :
    (⟨"X", "x", some 10, some 20⟩ : BranchLocation).latitude ≠ none ∧
      (⟨"X", "x", some 10, some 20⟩ : BranchLocation).longitude ≠ none :=
  C5_no_null_coordinates (fun _ _ => .located 10 20) [⟨"X", "x"⟩]
    [⟨"X", "x", some 10, some 20⟩] (by decide)
    ⟨"X", "x", some 10, some 20⟩ (by decide)

/-- Claim C9: if `geocode_address` returns a coordinate pair in which the
latitude or the longitude is exactly 0.0, `geocode_branches` treats that
branch as failed (the `if lat and lon:` test is Python truthiness, not a
non-null check) and excludes it, leaving the output exactly what the
remaining branches produce. -/
theorem C9_zero_coordinate_dropped (geo : String → Nat → LookupOutcome)
    (b : Branch) (rest : List Branch) (lat lon : Rat)
    (h : (geocode_address (geo b.address) 3).result = .ok lat lon)
    (h0 : lat = 0 ∨ lon = 0) :
    geocode_branches geo (b :: rest) = geocode_branches geo rest := by
  have hg : (truthy (some lat) && truthy (some lon)) = false := by
    rcases h0 with h0 | h0 <;> simp [truthy, h0]
  simp only [geocode_branches]
  rw [h]
  cases hrec : geocode_branches geo rest with
  | error e => simp [Except.map]
  | ok tail => simp [Except.map, hg]

/-- Witness for C9: a lookup that succeeds with latitude exactly 0 —
the branch is dropped and the batch over the singleton list is empty. -/
theorem C9_zero_coordinate_dropped_witness :
    geocode_branches (fun _ _ => .located 0 25) [⟨"X", "x"⟩] =
      geocode_branches (fun _ _ => .located 0 25) [] :=
  C9_zero_coordinate_dropped (fun _ _ => .located 0 25) ⟨"X", "x"⟩ []
    0 25 (by decide) (Or.inl rfl)

/-- Claim C10: `geocode_branches` preserves the name and address of each branch
unchanged, and the enriched list is an order-preserving sublist of the
input list restricted to the successfully geocoded branches. -/
theorem C10_order_preserving_sublist (geo : String → Nat → LookupOutcome)
    (bs : List Branch) (locs : List BranchLocation)
    (h : geocode_branches geo bs = .ok locs) :
    List.Sublist (locs.map (fun entry => (entry.name, entry.address)))
      (bs.map (fun b => (b.name, b.address))) := by
  induction bs generalizing locs with
  | nil =>
    simp only [geocode_branches] at h
    cases h
    simp
  | cons b rest ih =>
    simp only [geocode_branches] at h
    cases hres : (geocode_address (geo b.address) 3).result with
    | exn e => simp [hres] at h
    | failed =>
      rw [hres] at h
      exact List.Sublist.cons _ (ih locs h)
    | ok lat lon =>
      rw [hres] at h
      cases hrec : geocode_branches geo rest with
      | error e => simp [hrec, Except.map] at h
      | ok tail =>
        rw [hrec] at h
        simp only [Except.map] at h
        cases h
        by_cases hg : (truthy (some lat) && truthy (some lon)) = true
        · rw [if_pos hg]
          simp only [List.map_cons]
          exact List.Sublist.cons₂ (b.name, b.address) (ih tail hrec)
        · rw [if_neg hg]
          exact List.Sublist.cons _ (ih tail hrec)

/-- Witness for C10: one branch located, one always failing; the enriched
(name, address) pairs form a sublist of the input pairs. -/
theorem C10_order_preserving_sublist_witness :
    List.Sublist
      ([(⟨"Y", "y", some 10, some 20⟩ : BranchLocation)].map
        (fun entry => (entry.name, entry.address)))
      ([(⟨"X", "x"⟩ : Branch), ⟨"Y", "y"⟩].map
        (fun b => (b.name, b.address))) :=
  C10_order_preserving_sublist
    (fun a _ => if a = "x" then .notFound else .located 10 20)
    [⟨"X", "x"⟩, ⟨"Y", "y"⟩] [⟨"Y", "y", some 10, some 20⟩] (by decide)

/-- Claim C1 counterexample: with `max_retries = 3` and a lookup that
raises a transient timeout on every attempt, `geocode_address` makes 3
attempts and returns failure, but its backoff sleeps are `[1, 2]` — the
claimed schedule `1, 2, 4` does not occur, because on the last attempt the
`attempt < max_retries - 1` guard fails and the function returns
`(None, None)` without a further backoff sleep. -/
theorem C1_backoff_schedule_counterexample :
    (geocode_address (fun _ => .raises .geocoderTimedOut) 3).attempts = 3 ∧
      (geocode_address (fun _ => .raises .geocoderTimedOut) 3).result =
        .failed ∧
      (geocode_address (fun _ => .raises .geocoderTimedOut) 3).sleeps =
        [1, 2] ∧
      (geocode_address (fun _ => .raises .geocoderTimedOut) 3).sleeps ≠
        [1, 2, 4] := by
  decide

/-- Claim C1 as amended: for an address whose lookup raises a transient
error on every attempt with `max_retries = 3`, `geocode_address` makes
exactly 3 attempts, waits 1 then 2 time units of backoff (no backoff after
the final attempt), and returns failure; the address is excluded from the
final branch list while another successfully geocoded branch remains. -/
theorem C1_retry_exhaustion_amended (geo : String → Nat → LookupOutcome)
    (bad good : Branch) (lat lon : Rat)
    (hbad : ∀ n, geo bad.address n = .raises .geocoderTimedOut)
    (hgood : geo good.address 0 = .located lat lon)
    (hlat : lat ≠ 0) (hlon : lon ≠ 0) :
    (geocode_address (geo bad.address) 3).attempts = 3 ∧
      (geocode_address (geo bad.address) 3).sleeps = [1, 2] ∧
      (geocode_address (geo bad.address) 3).result = .failed ∧
      geocode_branches geo [good, bad] =
        .ok [⟨good.name, good.address, some lat, some lon⟩] := by
  have hbadrun : geocode_address (geo bad.address) 3 = ⟨.failed, 3, [1, 2]⟩ := by
    rw [geocode_address,
      geocodeFrom_allCaught (geo bad.address) 3 3 0 rfl
        (fun i _ => ⟨.geocoderTimedOut, hbad (0 + i), rfl⟩)]
    rfl
  have hgoodres : (geocode_address (geo good.address) 3).result = .ok lat lon := by
    rw [geocode_address,
      geocodeFrom_errorsThenLocated (geo good.address) 3 lat lon 0 3 0 rfl
        (by omega) (fun i hi => absurd hi (Nat.not_lt_zero i))
        (by rw [Nat.add_zero]; exact hgood)]
  have hbadres : (geocode_address (geo bad.address) 3).result = .failed := by
    rw [hbadrun]
  have hguard : (truthy (some lat) && truthy (some lon)) = true := by
    simp [truthy, hlat, hlon]
  refine ⟨by rw [hbadrun], by rw [hbadrun], hbadres, ?_⟩
  simp [geocode_branches, hgoodres, hbadres, Except.map, hguard]

/-- Witness for amended C1: branch "B" (address "bad") always times out,
branch "G" (address "good") is located at (25, -80); "B" is dropped and
the batch output is exactly the enriched "G". -/
theorem C1_retry_exhaustion_amended_witness :
    (geocode_address
        ((fun a (_ : Nat) => if a = "bad" then .raises .geocoderTimedOut
          else LookupOutcome.located 25 (-80)) "bad") 3).attempts = 3 ∧
      (geocode_address
        ((fun a (_ : Nat) => if a = "bad" then .raises .geocoderTimedOut
          else LookupOutcome.located 25 (-80)) "bad") 3).sleeps = [1, 2] ∧
      (geocode_address
        ((fun a (_ : Nat) => if a = "bad" then .raises .geocoderTimedOut
          else LookupOutcome.located 25 (-80)) "bad") 3).result = .failed ∧
      geocode_branches
        (fun a (_ : Nat) => if a = "bad" then .raises .geocoderTimedOut
          else LookupOutcome.located 25 (-80))
        [⟨"G", "good"⟩, ⟨"B", "bad"⟩] =
        .ok [⟨"G", "good", some 25, some (-80)⟩] :=
  C1_retry_exhaustion_amended
    (fun a (_ : Nat) => if a = "bad" then .raises .geocoderTimedOut
      else LookupOutcome.located 25 (-80))
    ⟨"B", "bad"⟩ ⟨"G", "good"⟩ 25 (-80)
    (fun _ => rfl) rfl (by decide) (by decide)

/-- Claim C8: failure of the boundary-data fetch is fatal: the fallback
source in `get_florida_counties` unconditionally raises (overlay.py line
75) before the alternative GeoJSON URL is ever fetched, so whenever the
primary download fails the function raises and never produces a boundary
collection via the fallback path. -/
theorem C8_fallback_always_raises (e : Exc) :
    get_florida_counties (.error e) =
        .error (.exception
          "Primary download method failed. Please check your internet connection.") ∧
      ∀ fc, get_florida_counties (.error e) ≠ .ok fc :=
  ⟨rfl, fun _ h => Except.noConfusion h⟩
